import Mathlib

/-!
Verification of the signage orchestration core (plugin registry, source
contract, config loader, batch executor, daemon scheduler) against its
specification. The Python code under `src/src/` is shallowly embedded:
wall-clock timestamps become `Int` parameters supplied by the caller (one
per `utcnow()` / `now()` call site), Python exceptions become the error
branch of `Except String`, dictionaries become insertion-ordered
association lists, and a concrete source plugin becomes a record of the
hook outcomes (`validate_config`, `fetch_data`, `_should_render`) that the
non-overridable `execute` entry point consumes.
-/

namespace Signage

/-- Embeds `src/src/models/signage_data.py::SignageContent`. The `metadata`
dict carries opaque values of which the executor only ever tests the
truthiness of the key `use_map_renderer`, so it is embedded as boolean
flags keyed by string. -/
structure SignageContent where
  lines : List String
  filename_pfx : String := ""
  layout_type : String := "centered"
  background_mode : String := "gradient"
  background_query : Option String := none
  metadata : List (String × Bool) := []
  deriving Repr, DecidableEq

/-- Embeds `src/src/plugins/base_source.py::SourceMetrics`. Timestamps are
`Int` seconds; `duration_seconds` is the integer difference of the two. -/
structure SourceMetrics where
  source_id : String
  source_type : String
  started_at : Int
  completed_at : Option Int := none
  success : Bool := false
  error : Option String := none
  duration_seconds : Option Int := none
  data_points : Nat := 0
  deriving Repr, DecidableEq

/-- Embeds a concrete `BaseSource` subclass instance
(`src/src/plugins/base_source.py`): the constructor state (`source_id`,
`config`) plus the outcome of each overridable hook. A raising hook is an
`Except.error` carrying `str(e)`; `should_render` embeds the
`_should_render` hook and is consulted only on non-null content. -/
structure BaseSource where
  source_id : String
  config : List (String × String) := []
  class_name : String
  validate_config : Except String Bool
  fetch_data : Except String (Option SignageContent)
  should_render : SignageContent → Except String Bool

/-- Embeds `BaseSource.execute` (`src/src/plugins/base_source.py`, lines
85-125): records `started_at`, runs `validate_config` then `fetch_data`
then the `_should_render` check inside one try/except, and in the
`finally` block unconditionally stamps `completed_at` and
`duration_seconds`. `tStart` and `tEnd` are the values of the two
`datetime.utcnow()` calls. -/
def BaseSource.execute (src : BaseSource) (tStart tEnd : Int) :
    Option SignageContent × SourceMetrics :=
  let m0 : SourceMetrics :=
    { source_id := src.source_id, source_type := src.class_name,
      started_at := tStart }
  let r : Option SignageContent × SourceMetrics :=
    match src.validate_config with
    | .error e => (none, { m0 with success := false, error := some e })
    | .ok _ =>
      match src.fetch_data with
      | .error e => (none, { m0 with success := false, error := some e })
      | .ok fetched =>
        let step : Except String (Option SignageContent) :=
          match fetched with
          | some c =>
            match src.should_render c with
            | .error e => .error e
            | .ok sr => .ok (if sr then some c else none)
          | none => .ok none
        match step with
        | .error e => (none, { m0 with success := false, error := some e })
        | .ok content =>
          (content,
           { m0 with
             success := content.isSome
             data_points := (match content with
               | some c => c.lines.length
               | none => 0) })
  (r.1, { r.2 with
          completed_at := some tEnd
          duration_seconds := some (tEnd - tStart) })

/-- A registered source constructor: builds a `BaseSource` instance from
`(source_id, config)`, as `SourceRegistry.create` does in
`src/src/plugins/registry.py`. -/
def SourceCtor := String → List (String × String) → BaseSource

/-- Embeds `src/src/plugins/registry.py::SourceRegistry._sources`: a Python
dict, so an insertion-ordered association list with unique keys. -/
structure SourceRegistry where
  sources : List (String × SourceCtor)

/-- Embeds `SourceRegistry.register`: raises `ValueError` if the type key is
already present, otherwise stores the constructor (dict insertion appends a
new key). -/
def SourceRegistry.register (r : SourceRegistry) (source_type : String)
    (ctor : SourceCtor) : Except String SourceRegistry :=
  if (r.sources.lookup source_type).isSome then
    .error ("Source type already registered: " ++ source_type)
  else
    .ok { sources := r.sources ++ [(source_type, ctor)] }

/-- Embeds `SourceRegistry.get`: raises `ValueError` listing the unknown
type when the key is absent. -/
def SourceRegistry.get (r : SourceRegistry) (source_type : String) :
    Except String SourceCtor :=
  match r.sources.lookup source_type with
  | none => .error ("Unknown source type: " ++ source_type)
  | some ctor => .ok ctor

/-- Embeds `SourceRegistry.list_types`: `list(cls._sources.keys())`, i.e.
the dict keys in insertion order. -/
def SourceRegistry.list_types (r : SourceRegistry) : List String :=
  r.sources.map (fun p => p.1)

/-- Embeds `SourceRegistry.create`: looks the type up, then invokes the
constructor on `(source_id, config)`. -/
def SourceRegistry.create (r : SourceRegistry) (source_type source_id : String)
    (config : List (String × String)) : Except String BaseSource :=
  match r.get source_type with
  | .error e => .error e
  | .ok ctor => .ok (ctor source_id config)

/-- Embeds `src/src/plugins/config/schemas.py::RenderingConfig` with its
pydantic defaults: `layout` and `background` default to the non-empty
strings "default" and "local"; `mode` and `background_query` default to
`None`. -/
structure RenderingConfig where
  layout : String := "default"
  mode : Option String := none
  background : String := "local"
  background_query : Option String := none
  deriving Repr, DecidableEq

/-- Embeds `schemas.py::RetryConfig` with its pydantic defaults. -/
structure RetryConfig where
  enabled : Bool := true
  max_attempts : Nat := 3
  backoff_seconds : List Nat := [1, 2, 4]
  deriving Repr, DecidableEq

/-- Embeds `schemas.py::FallbackConfig` with its pydantic defaults. -/
structure FallbackConfig where
  use_cached : Bool := false
  max_age_hours : Nat := 24
  deriving Repr, DecidableEq

/-- Embeds `schemas.py::SourceConfig` (one task definition). Config values
are embedded as strings, the only case `expand_env_vars` inspects. -/
structure SourceConfig where
  id : String
  type : String
  enabled : Bool := true
  schedule : String
  timeout : Nat := 30
  config : List (String × String) := []
  rendering : RenderingConfig := {}
  retry : RetryConfig := {}
  fallback : FallbackConfig := {}
  deriving Repr, DecidableEq

/-- Embeds `schemas.py::SourcesConfig` (the top-level `sources:` list). -/
structure SourcesConfig where
  sources : List SourceConfig
  deriving Repr, DecidableEq

/-- Load-time failures raised by the schema validators and the env-var
expansion pass (`ValueError` in Python, surfaced through pydantic's
`ValidationError` by the loader). -/
inductive LoadError where
  | duplicateIds (ids : List String)
  | missingEnvVar (name : String)
  deriving Repr, DecidableEq

/-- Embeds `schemas.py::SourcesConfig.validate_unique_ids`: collects every
id occurring more than once and raises enumerating the set of clashing ids
(`set(duplicates)` is embedded as `dedup` of the clashing-id list). -/
def SourcesConfig.validate_unique_ids (v : List SourceConfig) :
    Except LoadError (List SourceConfig) :=
  let ids := v.map (fun s => s.id)
  let duplicates := ids.filter (fun i => 1 < ids.count i)
  if duplicates.isEmpty then .ok v
  else .error (.duplicateIds duplicates.dedup)

/-- Embeds the per-value step of `schemas.py::SourceConfig.expand_env_vars`:
a string value of the exact shape `$\x7bNAME\x7d` is replaced by the
environment variable `NAME`, failing when it is unset; anything else passes
through unchanged. -/
def expandValue (env : List (String × String)) (value : String) :
    Except LoadError String :=
  if value.startsWith "$\x7b" && value.endsWith "\x7d" then
    let env_var := (value.drop 2).dropRight 1
    match env.lookup env_var with
    | none => .error (.missingEnvVar env_var)
    | some v => .ok v
  else .ok value

/-- Embeds `SourceConfig.expand_env_vars`: expands every config value,
propagating the first missing-variable failure. -/
def SourceConfig.expand_env_vars (env : List (String × String))
    (sc : SourceConfig) : Except LoadError SourceConfig :=
  match sc.config.mapM (fun kv =>
      (expandValue env kv.2).map (fun v => (kv.1, v))) with
  | .error e => .error e
  | .ok cfg => .ok { sc with config := cfg }

/-- Embeds `src/src/plugins/config/loader.py::ConfigLoader.load`. The file
system is abstracted to an `Option`: `none` is a missing file (load
returns `None`, not an error); `some raw` is the parsed document, which is
validated (pydantic construction, including `validate_unique_ids`) and then
env-expanded; any validation failure propagates. -/
def ConfigLoader.load (env : List (String × String))
    (file : Option (List SourceConfig)) :
    Except LoadError (Option SourcesConfig) :=
  match file with
  | none => .ok none
  | some raw =>
    match SourcesConfig.validate_unique_ids raw with
    | .error e => .error e
    | .ok ss =>
      match ss.mapM (SourceConfig.expand_env_vars env) with
      | .error e => .error e
      | .ok ss2 => .ok (some { sources := ss2 })

/-- One artifact handed to the rendering collaborators by
`PluginExecutor._execute_source` (`src/src/plugins/executor.py`): the
content after rendering-hint overrides, the filename derived from the task
id, whether the ferry-map branch was taken (`metadata` key
`use_map_renderer` truthy), and the `use_html` flag computed from
`rendering.mode`. -/
structure RenderedArtifact where
  content : SignageContent
  filename : String
  used_map_renderer : Bool
  use_html : Bool
  deriving Repr, DecidableEq

/-- Embeds `PluginExecutor._execute_source` (`executor.py`, lines 54-133).
Returns the metrics record logged for this definition (none when
`SourceRegistry.create` raised: that exception is caught by the outer
`except` and only logged) and the artifact forwarded to rendering (none on
a failed or content-less execution). `tStart`/`tEnd` are the two
`utcnow()` readings inside `BaseSource.execute`. The Python truthiness
tests `if rendering.background:` / `if rendering.layout:` are non-empty
string tests; `if rendering.background_query:` is non-None and non-empty. -/
def PluginExecutor.executeSource (reg : SourceRegistry)
    (source_config : SourceConfig) (tStart tEnd : Int) :
    Option SourceMetrics × Option RenderedArtifact :=
  match reg.create source_config.type source_config.id source_config.config with
  | .error _ => (none, none)
  | .ok source =>
    let cm := source.execute tStart tEnd
    let metrics := cm.2
    if !metrics.success then (some metrics, none)
    else
      match cm.1 with
      | none => (some metrics, none)
      | some c0 =>
        let c1 := if source_config.rendering.background ≠ "" then
            { c0 with background_mode := source_config.rendering.background }
          else c0
        let c2 := match source_config.rendering.background_query with
          | some q => if q ≠ "" then { c1 with background_query := some q }
                      else c1
          | none => c1
        let c3 := if source_config.rendering.layout ≠ "" then
            { c2 with layout_type := source_config.rendering.layout }
          else c2
        let filename := source_config.id ++ ".png"
        let useMap := (c3.metadata.lookup "use_map_renderer").getD false
        let use_html := decide (source_config.rendering.mode = some "html")
        (some metrics,
         some { content := c3, filename := filename,
                used_map_renderer := useMap, use_html := use_html })

/-- The observable outcome of one batch run: the metrics records logged,
and the artifacts forwarded to the rendering collaborators, in batch
order. -/
structure ExecTrace where
  metrics : List SourceMetrics
  rendered : List RenderedArtifact
  deriving Repr, DecidableEq

/-- Runs the filtered definitions in order, as the loop in
`PluginExecutor.run` does. `clock` supplies the successive `utcnow()`
readings: definition number `k` of the filtered batch uses readings
`clock (2*k)` and `clock (2*k+1)`. -/
def PluginExecutor.runAux (reg : SourceRegistry) (clock : Nat → Int) :
    List SourceConfig → Nat → ExecTrace
  | [], _ => { metrics := [], rendered := [] }
  | sc :: rest, k =>
    let step := PluginExecutor.executeSource reg sc (clock (2 * k))
      (clock (2 * k + 1))
    let t := PluginExecutor.runAux reg clock rest (k + 1)
    { metrics := step.1.toList ++ t.metrics
      rendered := step.2.toList ++ t.rendered }

/-- Embeds `PluginExecutor.run` (`executor.py`, lines 28-52): filters to the
enabled definitions matching the optional single-id filter, returns
immediately when none match, and otherwise executes each in collection
order. -/
def PluginExecutor.run (reg : SourceRegistry) (config : SourcesConfig)
    (source_filter : Option String) (clock : Nat → Int) : ExecTrace :=
  let sources_to_run := config.sources.filter (fun s =>
    s.enabled && (source_filter.isNone || source_filter == some s.id))
  if sources_to_run.isEmpty then { metrics := [], rendered := [] }
  else PluginExecutor.runAux reg clock sources_to_run 0

/-- Embeds the mutable state of `src/src/scheduler.py::SignageScheduler`:
the `last_run` dict (name to `Optional[datetime]`), the per-name base
`intervals` dict (seconds), and the live-event override interval. -/
structure SignageScheduler where
  last_run : List (String × Option Int)
  intervals : List (String × Int)
  live_interval : Int
  deriving Repr, DecidableEq

/-- Embeds `SignageScheduler.__init__`: empty `last_run`, the six preset
base intervals, and the configured live interval. -/
def SignageScheduler.init (live_interval : Int) : SignageScheduler :=
  { last_run := []
    intervals := [("tesla", 900), ("weather", 1800), ("stock", 300),
                  ("ferry", 300), ("whales", 3600), ("sports", 7200)]
    live_interval := live_interval }

/-- Embeds `SignageScheduler.should_run` (`scheduler.py`, lines 70-94).
`now` is this call's `datetime.now()`; `live` is the outcome of the
`_is_live_sports_event` probe for this tick (queried only for the name
"sports"). Returns `none` when `self.intervals[name]` would raise
`KeyError`, and otherwise the boolean the Python returns:
`True` when the name has no last-run timestamp (`.get(name) is None`
covers both an absent key and a stored `None`), else whether the elapsed
time has reached the resolved interval. -/
def SignageScheduler.should_run (s : SignageScheduler) (name : String)
    (now : Int) (live : Bool) : Option Bool :=
  match (s.last_run.lookup name).join with
  | none => some true
  | some last =>
    match s.intervals.lookup name with
    | none => none
    | some base =>
      let interval := if name == "sports" && live then s.live_interval
        else base
      some (decide (now - last ≥ interval))

/-- Python dict assignment `d[k] = v` on an association list: replaces the
first binding of `k`, or appends when absent. -/
def updateAssoc (l : List (String × Option Int)) (k : String)
    (v : Option Int) : List (String × Option Int) :=
  match l with
  | [] => [(k, v)]
  | p :: rest =>
    if p.1 = k then (k, v) :: rest else p :: updateAssoc rest k v

/-- Embeds the shared shape of `SignageScheduler._check_and_run_tesla` and
its five siblings (`scheduler.py`, lines 154-169 and onward): return
immediately unless `should_run(name)`; otherwise run the generator inside
a try/except, and set `last_run[name] = datetime.now()` only after the
generator returns — an exception skips that assignment and is merely
logged. `tCheck` is the `now()` used by `should_run`; `tDone` the `now()`
stored after a successful run; `gen` the generator call's outcome. The
result is `none` when `should_run` itself raises `KeyError`. -/
def SignageScheduler.check_and_run (s : SignageScheduler) (name : String)
    (tCheck tDone : Int) (live : Bool) (gen : Except String Unit) :
    Option SignageScheduler :=
  match s.should_run name tCheck live with
  | none => none
  | some false => some s
  | some true =>
    match gen with
    | .ok _ => some { s with last_run := updateAssoc s.last_run name (some tDone) }
    | .error _ => some s

/-! ### Concrete fixtures

Small concrete sources, registries and definitions used as inputs to the
scenario theorems and witnesses below. -/

/-- A source whose hooks all succeed and whose fetch returns `c`. -/
def mkOkSource (i : String) (cfg : List (String × String)) (cname : String)
    (c : Option SignageContent) : BaseSource :=
  { source_id := i, config := cfg, class_name := cname,
    validate_config := .ok true, fetch_data := .ok c,
    should_render := fun _ => .ok true }

/-- A source whose `fetch_data` raises with message `msg`. -/
def mkRaisingSource (i : String) (cfg : List (String × String))
    (cname : String) (msg : String) : BaseSource :=
  { source_id := i, config := cfg, class_name := cname,
    validate_config := .ok true, fetch_data := .error msg,
    should_render := fun _ => .ok true }

/-- Content as a task produces it: task-chosen layout and background. -/
def contentA : SignageContent :=
  { lines := ["line1", "line2"], layout_type := "weather",
    background_mode := "gradient" }

/-- A second task-produced content value. -/
def contentC : SignageContent :=
  { lines := ["x"], layout_type := "grid", background_mode := "gradient" }

/-- Three-type registry for the batch scenario: types `ta` and `tc`
succeed with content, `tb` raises in `fetch_data`. -/
def reg3 : SourceRegistry :=
  { sources :=
      [("ta", fun i cfg => mkOkSource i cfg "TA" (some contentA)),
       ("tb", fun i cfg => mkRaisingSource i cfg "TB" "boom"),
       ("tc", fun i cfg => mkOkSource i cfg "TC" (some contentC))] }

/-- Three enabled task definitions, the second of which is the raising
one. -/
def cfgs3 : List SourceConfig :=
  [{ id := "a", type := "ta", schedule := "*/5 * * * *" },
   { id := "b", type := "tb", schedule := "*/5 * * * *" },
   { id := "c", type := "tc", schedule := "*/5 * * * *" }]

/-- A definition with no `rendering:` section: every rendering field keeps
its schema default. -/
def cfgW : SourceConfig :=
  { id := "w", type := "tw", schedule := "0 * * * *" }

/-- One-type registry whose source yields `contentA`. -/
def regW : SourceRegistry :=
  { sources := [("tw", fun i cfg => mkOkSource i cfg "TW" (some contentA))] }

/-- Two task definitions sharing the id `weather_a`. -/
def cfgWA1 : SourceConfig :=
  { id := "weather_a", type := "weather", schedule := "0 * * * *" }

/-- Second definition with the clashing id `weather_a`. -/
def cfgWA2 : SourceConfig :=
  { id := "weather_a", type := "stock", schedule := "30 * * * *" }

/-- Scheduler state in which `tesla` last ran at time 0. -/
def sTesla0 : SignageScheduler :=
  { SignageScheduler.init 120 with last_run := [("tesla", some 0)] }

/-- A registry with no registrations yet. -/
def emptyRegistry : SourceRegistry := { sources := [] }

/-- An arbitrary constructor for registration fixtures. -/
def dummyCtor : SourceCtor := fun i cfg => mkOkSource i cfg "Dummy" none

/-- The registry obtained by registering type `b` and then type `a` into
an empty registry. -/
def regBA? : Except String SourceRegistry :=
  match emptyRegistry.register "b" dummyCtor with
  | .error e => .error e
  | .ok r => r.register "a" dummyCtor

/-! ### Helper lemmas about `BaseSource.execute` -/

/-- In every branch of `execute`, the metrics record carries the entry
`started_at` stamp, the `finally`-stamped `completed_at` and
`duration_seconds`, and `success` is exactly "returned content is
non-null". -/
theorem execute_fields (src : BaseSource) (tS tE : Int) :
    (src.execute tS tE).2.started_at = tS
    ∧ (src.execute tS tE).2.completed_at = some tE
    ∧ (src.execute tS tE).2.duration_seconds = some (tE - tS)
    ∧ (src.execute tS tE).2.success = (src.execute tS tE).1.isSome := by
  rcases hv : src.validate_config with e | b
  · simp [BaseSource.execute, hv]
  · rcases hf : src.fetch_data with e | fetched
    · simp [BaseSource.execute, hv, hf]
    · rcases fetched with _ | c
      · simp [BaseSource.execute, hv, hf]
      · rcases hs : src.should_render c with e | sr
        · simp [BaseSource.execute, hv, hf, hs]
        · rcases sr <;> simp [BaseSource.execute, hv, hf, hs]

/-- The metrics record always carries the `started_at` stamp taken on
entry. -/
theorem execute_started_at (src : BaseSource) (tS tE : Int) :
    (src.execute tS tE).2.started_at = tS :=
  (execute_fields src tS tE).1

/-- The `finally` block always stamps `completed_at` with the second clock
reading. -/
theorem execute_completed_at (src : BaseSource) (tS tE : Int) :
    (src.execute tS tE).2.completed_at = some tE :=
  (execute_fields src tS tE).2.1

/-- The `finally` block always records the duration as the difference of
the two clock readings. -/
theorem execute_duration (src : BaseSource) (tS tE : Int) :
    (src.execute tS tE).2.duration_seconds = some (tE - tS) :=
  (execute_fields src tS tE).2.2.1

/-- `success` is exactly "returned content is non-null". -/
theorem execute_success_eq (src : BaseSource) (tS tE : Int) :
    (src.execute tS tE).2.success = (src.execute tS tE).1.isSome :=
  (execute_fields src tS tE).2.2.2

/-- C8: for every source (hence every outcome of `validate_config`,
`fetch_data` and the `_should_render` hook), `execute` returns metrics in
which `completed_at` is set to the second clock reading, `completed_at ≥
started_at` whenever the two wall-clock readings are ordered (`tS ≤ tE`),
and `duration_seconds` is exactly their difference — completion is
recorded unconditionally, also on the raising paths. -/
theorem c8_execute_completion (src : BaseSource) (tS tE : Int)
    (h : tS ≤ tE) :
    (src.execute tS tE).2.completed_at = some tE
    ∧ (src.execute tS tE).2.started_at = tS
    ∧ (src.execute tS tE).2.duration_seconds =
        some (tE - (src.execute tS tE).2.started_at)
    ∧ (∀ tc, (src.execute tS tE).2.completed_at = some tc →
        (src.execute tS tE).2.started_at ≤ tc) := by
  refine ⟨execute_completed_at src tS tE, execute_started_at src tS tE, ?_, ?_⟩
  · rw [execute_started_at, execute_duration]
  · intro tc htc
    rw [execute_completed_at] at htc
    rw [execute_started_at]
    have : tE = tc := Option.some.inj htc
    omega

/-- Witness for C8 at a concrete raising source and clock readings 5 ≤ 9. -/
theorem c8_execute_completion_witness :
    ((mkRaisingSource "w" [] "W" "boom").execute 5 9).2.completed_at = some 9
    ∧ ((mkRaisingSource "w" [] "W" "boom").execute 5 9).2.started_at = 5
    ∧ ((mkRaisingSource "w" [] "W" "boom").execute 5 9).2.duration_seconds =
        some (9 - ((mkRaisingSource "w" [] "W" "boom").execute 5 9).2.started_at)
    ∧ (∀ tc, ((mkRaisingSource "w" [] "W" "boom").execute 5 9).2.completed_at
        = some tc →
        ((mkRaisingSource "w" [] "W" "boom").execute 5 9).2.started_at ≤ tc) :=
  c8_execute_completion (mkRaisingSource "w" [] "W" "boom") 5 9 (by norm_num)

/-- C10: `execute` is total at the plugin boundary. It is a total Lean
function, so it returns a `(content, metrics)` pair on every input; this
theorem adds that whenever `validate_config`, `fetch_data`, or the
`_should_render` hook raises (an `Except.error`), the exception is
captured rather than propagated: the returned content is null, `success`
is false, and the metrics `error` field carries the raised message. -/
theorem c10_execute_total (src : BaseSource) (tS tE : Int) :
    (∀ e, src.validate_config = Except.error e →
      (src.execute tS tE).1 = none
      ∧ (src.execute tS tE).2.error = some e
      ∧ (src.execute tS tE).2.success = false)
    ∧ (∀ b e, src.validate_config = Except.ok b →
        src.fetch_data = Except.error e →
        (src.execute tS tE).1 = none
        ∧ (src.execute tS tE).2.error = some e
        ∧ (src.execute tS tE).2.success = false)
    ∧ (∀ b c e, src.validate_config = Except.ok b →
        src.fetch_data = Except.ok (some c) →
        src.should_render c = Except.error e →
        (src.execute tS tE).1 = none
        ∧ (src.execute tS tE).2.error = some e
        ∧ (src.execute tS tE).2.success = false) := by
  refine ⟨?_, ?_, ?_⟩
  · intro e hv
    simp [BaseSource.execute, hv]
  · intro b e hv hf
    simp [BaseSource.execute, hv, hf]
  · intro b c e hv hf hs
    simp [BaseSource.execute, hv, hf, hs]

/-- Witness for C10 at a source whose `fetch_data` raises "kaput". -/
theorem c10_execute_total_witness :
    ((mkRaisingSource "r" [] "R" "kaput").execute 0 1).1 = none
    ∧ ((mkRaisingSource "r" [] "R" "kaput").execute 0 1).2.error = some "kaput"
    ∧ ((mkRaisingSource "r" [] "R" "kaput").execute 0 1).2.success = false :=
  (c10_execute_total (mkRaisingSource "r" [] "R" "kaput") 0 1).2.1 true "kaput"
    rfl rfl

/-- C2: when `validate_config` succeeds and `fetch_data` returns null
without raising — or the content is discarded by `_should_render`
returning false — `execute` returns null content with `success = false`,
`error = none` and `data_points = 0`: the no-data outcome never carries a
non-null error. -/
theorem c2_null_result_is_not_an_error (src : BaseSource) (tS tE : Int)
    (b : Bool) (hv : src.validate_config = Except.ok b) :
    (src.fetch_data = Except.ok none →
      (src.execute tS tE).1 = none
      ∧ (src.execute tS tE).2.success = false
      ∧ (src.execute tS tE).2.error = none
      ∧ (src.execute tS tE).2.data_points = 0)
    ∧ (∀ c, src.fetch_data = Except.ok (some c) →
        src.should_render c = Except.ok false →
        (src.execute tS tE).1 = none
        ∧ (src.execute tS tE).2.success = false
        ∧ (src.execute tS tE).2.error = none
        ∧ (src.execute tS tE).2.data_points = 0) := by
  constructor
  · intro hf
    simp [BaseSource.execute, hv, hf]
  · intro c hf hs
    simp [BaseSource.execute, hv, hf, hs]

/-- Witness for C2 at a source whose fetch returns null at times 2 ≤ 5. -/
theorem c2_null_result_is_not_an_error_witness :
    ((mkOkSource "n" [] "N" none).execute 2 5).1 = none
    ∧ ((mkOkSource "n" [] "N" none).execute 2 5).2.success = false
    ∧ ((mkOkSource "n" [] "N" none).execute 2 5).2.error = none
    ∧ ((mkOkSource "n" [] "N" none).execute 2 5).2.data_points = 0 :=
  (c2_null_result_is_not_an_error (mkOkSource "n" [] "N" none) 2 5 true rfl).1
    rfl

/-! ### Scheduler lemmas -/

/-- `should_run` is true for a name with no recorded last run. -/
theorem should_run_never_run (s : SignageScheduler) (name : String)
    (now : Int) (live : Bool)
    (h : (s.last_run.lookup name).join = none) :
    s.should_run name now live = some true := by
  unfold SignageScheduler.should_run
  rw [h]

/-- With a recorded last run and a present base interval, `should_run`
compares the elapsed time against the resolved interval (the live
override for the name "sports" when the probe fired, the base interval
otherwise). -/
theorem should_run_elapsed (s : SignageScheduler) (name : String)
    (now t i : Int) (live : Bool)
    (h : (s.last_run.lookup name).join = some t)
    (hi : s.intervals.lookup name = some i) :
    s.should_run name now live =
      some (decide (now - t ≥
        (if name == "sports" && live then s.live_interval else i))) := by
  unfold SignageScheduler.should_run
  rw [h, hi]

/-- Dict assignment makes the assigned key's lookup return the new value. -/
theorem lookup_updateAssoc (l : List (String × Option Int)) (k : String)
    (v : Option Int) : (updateAssoc l k v).lookup k = some v := by
  induction l with
  | nil => simp [updateAssoc]
  | cons p rest ih =>
    obtain ⟨k1, v1⟩ := p
    by_cases h : k1 = k
    · simp [updateAssoc, h]
    · have hb : (k == k1) = false :=
        beq_eq_false_iff_ne.mpr (fun hkp => h hkp.symm)
      simp [updateAssoc, if_neg h, List.lookup_cons, hb, ih]

/-- C6: `should_run(name)` is true for a task name never considered before
(no last-run entry, matching `.get(name) is None`); once a last-run
timestamp `t` is recorded and the name has a base interval `i`, it is
false while the elapsed time `now - t` is below the resolved interval and
true once the elapsed time reaches it. -/
theorem c6_should_run_interval (s : SignageScheduler) (name : String)
    (now t i : Int) (live : Bool) :
    ((s.last_run.lookup name).join = none →
      s.should_run name now live = some true)
    ∧ ((s.last_run.lookup name).join = some t →
       s.intervals.lookup name = some i →
       ((now - t < (if name == "sports" && live then s.live_interval else i) →
           s.should_run name now live = some false)
        ∧ (now - t ≥ (if name == "sports" && live then s.live_interval else i) →
           s.should_run name now live = some true))) := by
  refine ⟨fun h => should_run_never_run s name now live h, fun h hi => ⟨?_, ?_⟩⟩
  · intro hlt
    rw [should_run_elapsed s name now t i live h hi,
      decide_eq_false (not_le.mpr hlt)]
  · intro hge
    rw [should_run_elapsed s name now t i live h hi, decide_eq_true hge]

/-- Witness for C6: `tesla` has never run (true at time 5); with a last
run at 0 and base interval 900, false at time 800 and true at 930. -/
theorem c6_should_run_interval_witness :
    (SignageScheduler.init 120).should_run "tesla" 5 false = some true
    ∧ sTesla0.should_run "tesla" 800 false = some false
    ∧ sTesla0.should_run "tesla" 930 false = some true := by
  refine ⟨(c6_should_run_interval (SignageScheduler.init 120) "tesla" 5 0 0
      false).1 rfl, ?_, ?_⟩
  · exact ((c6_should_run_interval sTesla0 "tesla" 800 0 900 false).2 rfl
      rfl).1 (by decide)
  · exact ((c6_should_run_interval sTesla0 "tesla" 930 0 900 false).2 rfl
      rfl).2 (by decide)

/-- C3 counterexample: `tesla` has never run, so its first attempt at time
0 is due; the generator raises, the state is returned unchanged
(`last_run` is only assigned after a successful generator call), and on
the next tick at time 30 — far below the 900-second interval —
`should_run` is still true. The claim's `due → idle` after *any* attempt
is therefore false on the code: a failing task is retried every tick. -/
theorem c3_failed_attempt_stays_due_cex :
    (SignageScheduler.init 120).check_and_run "tesla" 0 0 false
        (Except.error "boom") = some (SignageScheduler.init 120)
    ∧ (SignageScheduler.init 120).should_run "tesla" 30 false = some true
    ∧ ¬ ((30 : Int) - 0 ≥ 900) := by
  refine ⟨by decide, by decide, by decide⟩

/-- C3 (amended): a task in the due state transitions to idle only after a
*successful* run attempt: a raising generator leaves the scheduler state
(and hence `should_run`) unchanged, while a successful run records the
completion time `tD`, after which `should_run` is false until the
resolved interval elapses from `tD`. -/
theorem c3_idle_only_after_success (s : SignageScheduler) (name : String)
    (tC tD now : Int) (live live2 : Bool) (e : String) (i : Int)
    (hrun : s.should_run name tC live = some true)
    (hi : s.intervals.lookup name = some i) :
    s.check_and_run name tC tD live (Except.error e) = some s
    ∧ (∀ s2, s.check_and_run name tC tD live (Except.ok ()) = some s2 →
        s2.last_run.lookup name = some (some tD)
        ∧ s2.should_run name now live2 =
            some (decide (now - tD ≥
              (if name == "sports" && live2 then s.live_interval else i)))) := by
  constructor
  · simp [SignageScheduler.check_and_run, hrun]
  · intro s2 h2
    simp only [SignageScheduler.check_and_run, hrun] at h2
    have hs2 : s2 = { s with last_run := updateAssoc s.last_run name (some tD) } :=
      (Option.some.inj h2).symm
    subst hs2
    have hl : (updateAssoc s.last_run name (some tD)).lookup name = some (some tD) :=
      lookup_updateAssoc s.last_run name (some tD)
    refine ⟨hl, ?_⟩
    exact should_run_elapsed _ name now tD i live2 (by rw [hl]; rfl) hi

/-- Witness for C3 (amended): `tesla` due at time 0; a raising generator
leaves the state unchanged; a succeeding generator at time 0 makes
`should_run` false at time 800 (interval 900 not yet elapsed). -/
theorem c3_idle_only_after_success_witness :
    (SignageScheduler.init 120).check_and_run "tesla" 0 0 false
        (Except.error "boom") = some (SignageScheduler.init 120)
    ∧ ∀ s2, (SignageScheduler.init 120).check_and_run "tesla" 0 0 false
        (Except.ok ()) = some s2 →
        s2.last_run.lookup "tesla" = some (some 0)
        ∧ s2.should_run "tesla" 800 false =
            some (decide ((800 : Int) - 0 ≥
              (if "tesla" == "sports" && false then
                (SignageScheduler.init 120).live_interval else 900))) :=
  c3_idle_only_after_success (SignageScheduler.init 120) "tesla" 0 0 800
    false false "boom" 900 (by decide) (by decide)

/-- C9 counterexample: registering type `b` and then type `a` makes
`list_types` return `["b", "a"]` — the registration (insertion) order —
although the sorted snapshot of these keys would be `["a", "b"]`
(`"a" < "b"`). The claim that `listTypes()` returns a sorted snapshot is
therefore false on the code. -/
theorem c9_list_types_not_sorted_cex :
    regBA?.map SourceRegistry.list_types = Except.ok ["b", "a"]
    ∧ (["b", "a"] : List String) ≠ ["a", "b"]
    ∧ ("a" : String) < "b" :=
  ⟨rfl, by decide, by
    rw [String.lt_iff_toList_lt]
    decide⟩

/-- C9 (amended): `list_types` returns the registered type keys in
registration (insertion) order, not sorted: registering an already-present
key fails, and a successful registration appends its key at the end of
the `list_types` snapshot, whatever the order of earlier registrations. -/
theorem c9_list_types_insertion_order (r : SourceRegistry) (t : String)
    (ctor : SourceCtor) :
    ((r.sources.lookup t).isSome = true →
      r.register t ctor =
        Except.error ("Source type already registered: " ++ t))
    ∧ (r.sources.lookup t = none →
        r.register t ctor = Except.ok { sources := r.sources ++ [(t, ctor)] }
        ∧ ({ sources := r.sources ++ [(t, ctor)] } :
            SourceRegistry).list_types = r.list_types ++ [t]) := by
  constructor
  · intro h
    simp [SourceRegistry.register, h]
  · intro h
    constructor
    · simp [SourceRegistry.register, h]
    · simp [SourceRegistry.list_types]

/-- Witness for C9 (amended): registering `a` into the empty registry
appends it. -/
theorem c9_list_types_insertion_order_witness :
    emptyRegistry.register "a" dummyCtor =
      Except.ok { sources := emptyRegistry.sources ++ [("a", dummyCtor)] }
    ∧ ({ sources := emptyRegistry.sources ++ [("a", dummyCtor)] } :
        SourceRegistry).list_types = emptyRegistry.list_types ++ ["a"] :=
  (c9_list_types_insertion_order emptyRegistry "a" dummyCtor).2 rfl

/-- C4: the claim states the retry/fallback policy is consumed by the run
path. It is not: the batch executor's outcome is completely independent
of the definition's `retry` and `fallback` fields, and a definition with
`retry.enabled = true` and `max_attempts = 3` whose fetch raises is
recorded as failed after the single attempt, with no cached substitute —
the policy is validated by the schema but never read by
`_execute_source`. -/
theorem c4_retry_policy_not_consumed (reg : SourceRegistry)
    (sc : SourceConfig) (r1 r2 : RetryConfig) (f1 f2 : FallbackConfig)
    (tS tE : Int) :
    PluginExecutor.executeSource reg { sc with retry := r1, fallback := f1 }
        tS tE
      = PluginExecutor.executeSource reg { sc with retry := r2, fallback := f2 }
        tS tE
    ∧ ((PluginExecutor.executeSource reg3
        { id := "b", type := "tb", schedule := "*/5 * * * *",
          retry := { enabled := true, max_attempts := 3 } } 0 1).1.map
          (fun m => (m.success, m.error)) = some (false, some "boom"))
    ∧ (PluginExecutor.executeSource reg3
        { id := "b", type := "tb", schedule := "*/5 * * * *",
          retry := { enabled := true, max_attempts := 3 } } 0 1).2 = none :=
  ⟨rfl, by decide, by decide⟩

/-- C5 counterexample: a definition with no rendering section (`cfgW`,
whose `rendering` equals the schema default) does not leave the task's
`layout_type` and `background_mode` unchanged: the task produced
`"weather"` / `"gradient"` (`contentA`), but the forwarded artifact
carries the schema defaults `"default"` / `"local"`, because the executor
overrides whenever the definition's `layout`/`background` strings are
non-empty — and the schema defaults are non-empty. -/
theorem c5_unspecified_hints_still_override_cex :
    ((PluginExecutor.executeSource regW cfgW 0 1).2.map
        (fun a => (a.content.layout_type, a.content.background_mode)))
      = some ("default", "local")
    ∧ contentA.layout_type = "weather"
    ∧ contentA.background_mode = "gradient"
    ∧ cfgW.rendering = {} := by
  refine ⟨by decide, by decide, by decide, by decide⟩

/-- C5 (amended): on a successful execution with content, the executor
overrides `background_mode` and `layout_type` with the definition's
`rendering.background`/`rendering.layout` whenever those strings are
non-empty — which, the schema defaults being the non-empty `"local"` and
`"default"`, is always, even for a definition with no rendering section —
and overrides `background_query` only when the definition specifies a
non-empty value, keeping the task's own value otherwise; the content
lines are forwarded unchanged and the output identifier is derived from
the task id. -/
theorem c5_rendering_overrides (reg : SourceRegistry) (sc : SourceConfig)
    (tS tE : Int) (src : BaseSource) (c : SignageContent)
    (h1 : reg.create sc.type sc.id sc.config = Except.ok src)
    (h2 : (src.execute tS tE).1 = some c) :
    ((PluginExecutor.executeSource reg sc tS tE).2.map
        (fun a => a.content.background_mode)) =
      some (if sc.rendering.background = "" then c.background_mode
            else sc.rendering.background)
    ∧ ((PluginExecutor.executeSource reg sc tS tE).2.map
        (fun a => a.content.background_query)) =
      some (match sc.rendering.background_query with
            | some q => if q = "" then c.background_query else some q
            | none => c.background_query)
    ∧ ((PluginExecutor.executeSource reg sc tS tE).2.map
        (fun a => a.content.layout_type)) =
      some (if sc.rendering.layout = "" then c.layout_type
            else sc.rendering.layout)
    ∧ ((PluginExecutor.executeSource reg sc tS tE).2.map
        (fun a => a.content.lines)) = some c.lines
    ∧ ((PluginExecutor.executeSource reg sc tS tE).2.map
        (fun a => a.filename)) = some (sc.id ++ ".png") := by
  have hsucc : (src.execute tS tE).2.success = true := by
    rw [execute_success_eq, h2]
    rfl
  simp only [PluginExecutor.executeSource, h1, hsucc, h2, Bool.not_true]
  rcases hbq : sc.rendering.background_query with _ | q <;>
    by_cases hb : sc.rendering.background = "" <;>
    by_cases hl : sc.rendering.layout = "" <;>
    first
      | (by_cases hq0 : q = "" <;> simp [hbq, hb, hl, hq0])
      | simp [hbq, hb, hl]

/-- Witness for C5 (amended) at the concrete registry `regW`, definition
`cfgW` and content `contentA`. -/
theorem c5_rendering_overrides_witness :
    ((PluginExecutor.executeSource regW cfgW 0 1).2.map
        (fun a => a.content.background_mode)) =
      some (if cfgW.rendering.background = "" then contentA.background_mode
            else cfgW.rendering.background)
    ∧ ((PluginExecutor.executeSource regW cfgW 0 1).2.map
        (fun a => a.content.background_query)) =
      some (match cfgW.rendering.background_query with
            | some q => if q = "" then contentA.background_query else some q
            | none => contentA.background_query)
    ∧ ((PluginExecutor.executeSource regW cfgW 0 1).2.map
        (fun a => a.content.layout_type)) =
      some (if cfgW.rendering.layout = "" then contentA.layout_type
            else cfgW.rendering.layout)
    ∧ ((PluginExecutor.executeSource regW cfgW 0 1).2.map
        (fun a => a.content.lines)) = some contentA.lines
    ∧ ((PluginExecutor.executeSource regW cfgW 0 1).2.map
        (fun a => a.filename)) = some (cfgW.id ++ ".png") :=
  c5_rendering_overrides regW cfgW 0 1
    (mkOkSource "w" [] "TW" (some contentA)) contentA rfl rfl

/-- C7: loading a collection in which some id occurs in two or more
definitions fails with a duplicate-ids error that enumerates exactly the
clashing ids (those occurring at least twice), and the config is never
returned; in particular a collection of two definitions both with id
`weather_a` fails enumerating `["weather_a"]`. -/
theorem c7_duplicate_ids_rejected (env : List (String × String))
    (v : List SourceConfig) (i0 : String)
    (h : 2 ≤ (v.map (fun s => s.id)).count i0) :
    (∃ dups, ConfigLoader.load env (some v) =
        Except.error (LoadError.duplicateIds dups)
      ∧ dups ≠ []
      ∧ (∀ i, i ∈ dups ↔ 2 ≤ (v.map (fun s => s.id)).count i))
    ∧ ConfigLoader.load [] (some [cfgWA1, cfgWA2]) =
        Except.error (LoadError.duplicateIds ["weather_a"]) := by
  constructor
  · have hmem : i0 ∈ (v.map (fun s => s.id)).filter
        (fun i => 1 < (v.map (fun s => s.id)).count i) := by
      rw [List.mem_filter]
      exact ⟨List.count_pos_iff.mp (by omega), by
        simp only [decide_eq_true_eq]
        omega⟩
    refine ⟨((v.map (fun s => s.id)).filter
        (fun i => 1 < (v.map (fun s => s.id)).count i)).dedup, ?_, ?_, ?_⟩
    · unfold ConfigLoader.load SourcesConfig.validate_unique_ids
      dsimp only
      rw [if_neg (fun hEq =>
        List.ne_nil_of_mem hmem (List.isEmpty_iff.mp hEq))]
    · exact List.ne_nil_of_mem (List.mem_dedup.mpr hmem)
    · intro i
      rw [List.mem_dedup, List.mem_filter]
      constructor
      · rintro ⟨_, hc⟩
        simp only [decide_eq_true_eq] at hc
        omega
      · intro h2
        exact ⟨List.count_pos_iff.mp (by omega), by
          simp only [decide_eq_true_eq]
          omega⟩
  · rfl

/-- Witness for C7: the two-definition `weather_a` collection is rejected
with the clashing id enumerated. -/
theorem c7_duplicate_ids_rejected_witness :
    ConfigLoader.load [] (some [cfgWA1, cfgWA2]) =
      Except.error (LoadError.duplicateIds ["weather_a"]) :=
  (c7_duplicate_ids_rejected [] [cfgWA1, cfgWA2] "weather_a" (by decide)).2

/-- When construction succeeds, `_execute_source` always logs exactly the
metrics record returned by `execute`. -/
theorem executeSource_create_ok (reg : SourceRegistry) (sc : SourceConfig)
    (tS tE : Int) (src : BaseSource)
    (h : reg.create sc.type sc.id sc.config = Except.ok src) :
    (PluginExecutor.executeSource reg sc tS tE).1 =
      some (src.execute tS tE).2 := by
  simp only [PluginExecutor.executeSource, h]
  cases hs : (src.execute tS tE).2.success
  · simp [hs]
  · cases hc : (src.execute tS tE).1 <;> simp [hs, hc]

/-- Running a batch in which every definition constructs produces exactly
one metrics record per definition, in order. -/
theorem runAux_metrics_length (reg : SourceRegistry) (clock : Nat → Int)
    (l : List SourceConfig) (k : Nat)
    (h : ∀ sc ∈ l, ∃ src,
      reg.create sc.type sc.id sc.config = Except.ok src) :
    (PluginExecutor.runAux reg clock l k).metrics.length = l.length := by
  induction l generalizing k with
  | nil => rfl
  | cons sc rest ih =>
    obtain ⟨src, hsrc⟩ := h sc (by simp)
    have h1 := executeSource_create_ok reg sc (clock (2 * k))
      (clock (2 * k + 1)) src hsrc
    have h2 := ih (k + 1) (fun x hx => h x (List.mem_cons_of_mem sc hx))
    simp only [PluginExecutor.runAux, List.length_append, h1,
      Option.toList_some, List.length_cons, List.length_nil, h2]
    omega

/-- C1: per-task failure isolation in the batch executor. A definition
whose constructed source raises in `fetch_data` (after a passing
`validate_config`) is recorded as a failed metrics record — `success =
false` with a non-null `error` — and forwards nothing to rendering; a
batch over any collection whose enabled definitions all construct yields
exactly one metrics record per enabled definition (the batch is never
aborted); and the concrete batch of three enabled tasks whose second
raises yields exactly 3 metrics records (2 success, 1 failure, the
failure carrying a non-null error) and exactly 2 rendered artifacts. -/
theorem c1_batch_failure_isolation (reg : SourceRegistry)
    (sc : SourceConfig) (tS tE : Int) (src : BaseSource) (b : Bool)
    (e : String)
    (h1 : reg.create sc.type sc.id sc.config = Except.ok src)
    (h2 : src.validate_config = Except.ok b)
    (h3 : src.fetch_data = Except.error e) :
    ((PluginExecutor.executeSource reg sc tS tE).1 =
        some (src.execute tS tE).2
      ∧ (src.execute tS tE).2.success = false
      ∧ (src.execute tS tE).2.error = some e
      ∧ (PluginExecutor.executeSource reg sc tS tE).2 = none)
    ∧ (∀ (cfgs : List SourceConfig) (clock : Nat → Int),
        (∀ x ∈ cfgs.filter (fun s => s.enabled), ∃ s2,
          reg.create x.type x.id x.config = Except.ok s2) →
        (PluginExecutor.run reg { sources := cfgs } none clock).metrics.length
          = (cfgs.filter (fun s => s.enabled)).length)
    ∧ ((PluginExecutor.run reg3 { sources := cfgs3 } none
          (fun n => (n : Int))).metrics.length = 3
      ∧ ((PluginExecutor.run reg3 { sources := cfgs3 } none
          (fun n => (n : Int))).metrics.filter
            (fun m => m.success)).length = 2
      ∧ ((PluginExecutor.run reg3 { sources := cfgs3 } none
          (fun n => (n : Int))).metrics.filter
            (fun m => !m.success)).length = 1
      ∧ (∀ m ∈ (PluginExecutor.run reg3 { sources := cfgs3 } none
          (fun n => (n : Int))).metrics, m.success = false → m.error ≠ none)
      ∧ (PluginExecutor.run reg3 { sources := cfgs3 } none
          (fun n => (n : Int))).rendered.length = 2) := by
  have hfail : (src.execute tS tE).2.success = false
      ∧ (src.execute tS tE).2.error = some e := by
    constructor <;> simp [BaseSource.execute, h2, h3]
  refine ⟨⟨executeSource_create_ok reg sc tS tE src h1, hfail.1, hfail.2, ?_⟩,
    ?_, ?_⟩
  · simp only [PluginExecutor.executeSource, h1, hfail.1]
    simp
  · intro cfgs clock hall
    have hpred : cfgs.filter (fun s =>
        s.enabled && ((none : Option String).isNone || none == some s.id))
      = cfgs.filter (fun s => s.enabled) := by
      apply List.filter_congr
      intro x _
      simp
    unfold PluginExecutor.run
    dsimp only
    rw [hpred]
    rcases hE : (cfgs.filter (fun s => s.enabled)).isEmpty with _ | _
    · rw [if_neg (by rw [hE]; exact Bool.false_ne_true)]
      exact runAux_metrics_length reg clock _ 0 hall
    · rw [if_pos hE]
      rw [List.isEmpty_iff.mp hE]
      rfl
  · refine ⟨by decide, by decide, by decide, by decide, by decide⟩

/-- Witness for C1 at the concrete registry `reg3` and the raising
definition of the batch scenario. -/
theorem c1_batch_failure_isolation_witness :
    ((PluginExecutor.executeSource reg3
        { id := "b", type := "tb", schedule := "*/5 * * * *" } 0 1).1 =
      some ((mkRaisingSource "b" [] "TB" "boom").execute 0 1).2
    ∧ ((mkRaisingSource "b" [] "TB" "boom").execute 0 1).2.success = false
    ∧ ((mkRaisingSource "b" [] "TB" "boom").execute 0 1).2.error = some "boom"
    ∧ (PluginExecutor.executeSource reg3
        { id := "b", type := "tb", schedule := "*/5 * * * *" } 0 1).2 = none)
    ∧ (∀ (cfgs : List SourceConfig) (clock : Nat → Int),
        (∀ x ∈ cfgs.filter (fun s => s.enabled), ∃ s2,
          reg3.create x.type x.id x.config = Except.ok s2) →
        (PluginExecutor.run reg3 { sources := cfgs } none clock).metrics.length
          = (cfgs.filter (fun s => s.enabled)).length)
    ∧ ((PluginExecutor.run reg3 { sources := cfgs3 } none
          (fun n => (n : Int))).metrics.length = 3
      ∧ ((PluginExecutor.run reg3 { sources := cfgs3 } none
          (fun n => (n : Int))).metrics.filter
            (fun m => m.success)).length = 2
      ∧ ((PluginExecutor.run reg3 { sources := cfgs3 } none
          (fun n => (n : Int))).metrics.filter
            (fun m => !m.success)).length = 1
      ∧ (∀ m ∈ (PluginExecutor.run reg3 { sources := cfgs3 } none
          (fun n => (n : Int))).metrics, m.success = false → m.error ≠ none)
      ∧ (PluginExecutor.run reg3 { sources := cfgs3 } none
          (fun n => (n : Int))).rendered.length = 2) :=
  c1_batch_failure_isolation reg3
    { id := "b", type := "tb", schedule := "*/5 * * * *" } 0 1
    (mkRaisingSource "b" [] "TB" "boom") true "boom" rfl rfl rfl

end Signage
